import Mathlib

/-!
Shallow embedding of the `otelutils` package: a configuration-translation
layer over the OpenTelemetry Go SDK.  Pure option-list builders are
translated directly; calls into the external SDK (resource detection,
exporter construction, propagator encode/decode) are modelled explicitly,
with results of external calls passed in as parameters where the SDK can
fail.  Durations are modelled as naturals (seconds); attribute key/values
as string pairs.
-/

namespace Otelutils

/-- An attribute key/value pair (`attribute.KeyValue` in the source). -/
abbrev KeyValue := String × String

/-- The schema URL constant `semconv.SchemaURL` (semconv v1.12.0). -/
def semconvSchemaURL : String := "https://opentelemetry.io/schemas/1.12.0"

/-- A resource detector (`resource.Detector`); opaque to this package, so
modelled by an identifier plus the attributes it would detect. -/
structure Detector where
  id : Nat
  deriving DecidableEq, Repr

/-- One `resource.Option` value as produced by `ResourceConfig.getOptions`. -/
inductive ResourceOption where
  | withSchemaURL (url : String)
  | withTelemetrySDK
  | withAttributes (attrs : List KeyValue)
  | withContainer
  | withContainerID
  | withDetectors (ds : List Detector)
  | withFromEnv
  | withHost
  | withOS
  | withOSDescription
  | withOSType
  | withProcess
  | withProcessCommandArgs
  | withProcessExecutableName
  | withProcessExecutablePath
  | withProcessOwner
  | withProcessPID
  | withProcessRuntimeDescription
  | withProcessRuntimeName
  | withProcessRuntimeVersion
  deriving DecidableEq, Repr

/-- `ResourceConfig` from the source: an explicit attribute list, an
unexported detector list, and one boolean per semantic attribute group. -/
structure ResourceConfig where
  attributes : List KeyValue := []
  container : Bool := false
  containerID : Bool := false
  detectors : List Detector := []
  fromEnv : Bool := false
  host : Bool := false
  os : Bool := false
  osDescription : Bool := false
  osType : Bool := false
  process : Bool := false
  processCommandArgs : Bool := false
  processExecutableName : Bool := false
  processExecutablePath : Bool := false
  processOwner : Bool := false
  processPID : Bool := false
  processRuntimeDescription : Bool := false
  processRuntimeName : Bool := false
  processRuntimeVersion : Bool := false
  deriving Repr

/-- `ResourceConfig.getOptions`: schema URL and telemetry-SDK options are
appended unconditionally, then one option per boolean field that is true or
collection field that is non-empty, in source order. -/
def ResourceConfig.getOptions (r : ResourceConfig) : List ResourceOption :=
  [ResourceOption.withSchemaURL semconvSchemaURL, ResourceOption.withTelemetrySDK]
  ++ (if r.attributes.length > 0 then [ResourceOption.withAttributes r.attributes] else [])
  ++ (if r.container then [ResourceOption.withContainer] else [])
  ++ (if r.containerID then [ResourceOption.withContainerID] else [])
  ++ (if r.detectors.length > 0 then [ResourceOption.withDetectors r.detectors] else [])
  ++ (if r.fromEnv then [ResourceOption.withFromEnv] else [])
  ++ (if r.host then [ResourceOption.withHost] else [])
  ++ (if r.os then [ResourceOption.withOS] else [])
  ++ (if r.osDescription then [ResourceOption.withOSDescription] else [])
  ++ (if r.osType then [ResourceOption.withOSType] else [])
  ++ (if r.process then [ResourceOption.withProcess] else [])
  ++ (if r.processCommandArgs then [ResourceOption.withProcessCommandArgs] else [])
  ++ (if r.processExecutableName then [ResourceOption.withProcessExecutableName] else [])
  ++ (if r.processExecutablePath then [ResourceOption.withProcessExecutablePath] else [])
  ++ (if r.processOwner then [ResourceOption.withProcessOwner] else [])
  ++ (if r.processPID then [ResourceOption.withProcessPID] else [])
  ++ (if r.processRuntimeDescription then [ResourceOption.withProcessRuntimeDescription] else [])
  ++ (if r.processRuntimeName then [ResourceOption.withProcessRuntimeName] else [])
  ++ (if r.processRuntimeVersion then [ResourceOption.withProcessRuntimeVersion] else [])

/-- A resolved resource: a schema URL plus a list of attributes. -/
structure Resource where
  schemaURL : String := ""
  attrs : List KeyValue := []
  deriving DecidableEq, Repr

/-- Modelled from the spec: the detection environment, giving the attribute
set each semantic group detector of the SDK would contribute, and the
SDK's default resource. -/
structure DetectEnv where
  telemetrySDK : List KeyValue := []
  container : List KeyValue := []
  containerID : List KeyValue := []
  fromEnv : List KeyValue := []
  host : List KeyValue := []
  os : List KeyValue := []
  osDescription : List KeyValue := []
  osType : List KeyValue := []
  process : List KeyValue := []
  processCommandArgs : List KeyValue := []
  processExecutableName : List KeyValue := []
  processExecutablePath : List KeyValue := []
  processOwner : List KeyValue := []
  processPID : List KeyValue := []
  processRuntimeDescription : List KeyValue := []
  processRuntimeName : List KeyValue := []
  processRuntimeVersion : List KeyValue := []
  detectorAttrs : Detector → List KeyValue := fun _ => []
  defaultResource : Resource := {}

/-- Modelled from the spec: the attributes one `resource.Option` contributes
under a given detection environment (`WithSchemaURL` contributes none, it
only sets the schema URL). -/
def optionAttrs (e : DetectEnv) : ResourceOption → List KeyValue
  | .withSchemaURL _ => []
  | .withTelemetrySDK => e.telemetrySDK
  | .withAttributes a => a
  | .withContainer => e.container
  | .withContainerID => e.containerID
  | .withDetectors ds => (ds.map e.detectorAttrs).foldr (· ++ ·) []
  | .withFromEnv => e.fromEnv
  | .withHost => e.host
  | .withOS => e.os
  | .withOSDescription => e.osDescription
  | .withOSType => e.osType
  | .withProcess => e.process
  | .withProcessCommandArgs => e.processCommandArgs
  | .withProcessExecutableName => e.processExecutableName
  | .withProcessExecutablePath => e.processExecutablePath
  | .withProcessOwner => e.processOwner
  | .withProcessPID => e.processPID
  | .withProcessRuntimeDescription => e.processRuntimeDescription
  | .withProcessRuntimeName => e.processRuntimeName
  | .withProcessRuntimeVersion => e.processRuntimeVersion

/-- The schema URL an option sets, if any. -/
def optionSchema : ResourceOption → Option String
  | .withSchemaURL u => some u
  | _ => none

/-- Modelled from the spec: `resource.New` assembles a resource from the
option list — the last schema-URL option wins, and every option contributes
its detected attributes. -/
def resourceNew (e : DetectEnv) (opts : List ResourceOption) : Resource :=
  { schemaURL := (opts.filterMap optionSchema).getLastD ""
  , attrs := (opts.map (optionAttrs e)).foldr (· ++ ·) [] }

/-- Modelled from the spec: `resource.Merge a b` — `b`'s attributes override
`a`'s on key collision; fails when both schema URLs are non-empty and differ. -/
def resourceMerge (a b : Resource) : Except String Resource :=
  if a.schemaURL ≠ "" ∧ b.schemaURL ≠ "" ∧ a.schemaURL ≠ b.schemaURL then
    .error "cannot merge resource due to conflicting Schema URL"
  else
    .ok { schemaURL := if b.schemaURL ≠ "" then b.schemaURL else a.schemaURL
        , attrs := a.attrs.filter (fun kv => b.attrs.all (fun kv2 => kv2.1 ≠ kv.1)) ++ b.attrs }

/-- `ResourceConfig.newResource`: build a resource from the option list,
then merge the SDK default resource with it (the new resource wins). -/
def ResourceConfig.newResource (e : DetectEnv) (r : ResourceConfig) : Except String Resource :=
  resourceMerge e.defaultResource (resourceNew e r.getOptions)

/-- A `ResourceConfig` with every boolean false and every collection empty. -/
def ResourceConfig.allZero (r : ResourceConfig) : Prop :=
  r.attributes = [] ∧ r.container = false ∧ r.containerID = false ∧ r.detectors = [] ∧
  r.fromEnv = false ∧ r.host = false ∧ r.os = false ∧ r.osDescription = false ∧
  r.osType = false ∧ r.process = false ∧ r.processCommandArgs = false ∧
  r.processExecutableName = false ∧ r.processExecutablePath = false ∧
  r.processOwner = false ∧ r.processPID = false ∧ r.processRuntimeDescription = false ∧
  r.processRuntimeName = false ∧ r.processRuntimeVersion = false

instance (r : ResourceConfig) : Decidable r.allZero := by
  unfold ResourceConfig.allZero; infer_instance

/-- An output stream (`io.Writer`): the process standard output, or a
caller-supplied writer identified by a token. -/
inductive Writer where
  | stdout
  | custom (id : Nat)
  deriving DecidableEq, Repr

/-- One `stdouttrace.Option` value. -/
inductive ConsoleOption where
  | withPrettyPrint
  | withoutTimestamps
  | withWriter (w : Writer)
  deriving DecidableEq, Repr

/-- `ConsoleSpanExporterConfig` from the source: pretty-print and timestamp
booleans plus an optional writer (`*io.Writer`, nil when absent). -/
structure ConsoleSpanExporterConfig where
  prettyPrint : Bool := false
  timestamps : Bool := false
  writer : Option Writer := none
  deriving DecidableEq, Repr

/-- `ConsoleSpanExporterConfig.getOptions`: `WithPrettyPrint` when the
pretty-print flag is set, `WithoutTimestamps` when the timestamp flag is
unset, and `WithWriter` with `os.Stdout` when no writer was supplied,
otherwise with the supplied writer. -/
def ConsoleSpanExporterConfig.getOptions (c : ConsoleSpanExporterConfig) : List ConsoleOption :=
  (if c.prettyPrint then [ConsoleOption.withPrettyPrint] else [])
  ++ (if !c.timestamps then [ConsoleOption.withoutTimestamps] else [])
  ++ (match c.writer with
      | none => [ConsoleOption.withWriter Writer.stdout]
      | some w => [ConsoleOption.withWriter w])

/-- A gRPC dial option (`grpc.DialOption`); opaque, identified by a token. -/
structure DialOption where
  id : Nat
  deriving DecidableEq, Repr

/-- An established gRPC client connection (`*grpc.ClientConn`), identified by
the target it is connected to. -/
structure GrpcConn where
  target : String
  deriving DecidableEq, Repr

/-- Transport credentials (`credentials.TransportCredentials`); opaque. -/
structure TlsCreds where
  id : Nat
  deriving DecidableEq, Repr

/-- `otlptracegrpc.RetryConfig`: the retry policy record the option-functions
mutate.  Durations in seconds. -/
structure RetryConfig where
  enabled : Bool := false
  initialInterval : Nat := 0
  maxInterval : Nat := 0
  maxElapsedTime : Nat := 0
  deriving DecidableEq, Repr

/-- The zero value `otlptracegrpc.RetryConfig\x7b\x7d` the source builds its
retry configuration from. -/
def zeroRetryConfig : RetryConfig := {}

/-- Modelled from the spec: the exporter's built-in default backoff policy
(retry enabled, first retry after 5 seconds, exponential growth capped at
30 seconds per wait, at most 1 minute total). -/
def defaultRetryConfig : RetryConfig :=
  { enabled := true, initialInterval := 5, maxInterval := 30, maxElapsedTime := 60 }

/-- `RetryOption`: a function mutating a `RetryConfig` in place. -/
abbrev RetryOption := RetryConfig → RetryConfig

/-- `RetryEnabled`: sets only the `Enabled` field. -/
def RetryEnabled (enabled : Bool) : RetryOption :=
  fun rc => { rc with enabled := enabled }

/-- `RetryInitialInterval`: sets only the `InitialInterval` field. -/
def RetryInitialInterval (interval : Nat) : RetryOption :=
  fun rc => { rc with initialInterval := interval }

/-- `RetryMaxInterval`: sets only the `MaxInterval` field. -/
def RetryMaxInterval (interval : Nat) : RetryOption :=
  fun rc => { rc with maxInterval := interval }

/-- `RetryMaxElapsedTime`: sets only the `MaxElapsedTime` field. -/
def RetryMaxElapsedTime (interval : Nat) : RetryOption :=
  fun rc => { rc with maxElapsedTime := interval }

/-- Applying a list of retry options in order, as the source's loop does. -/
def applyRetryOptions (opts : List RetryOption) (rc : RetryConfig) : RetryConfig :=
  opts.foldl (fun rc o => o rc) rc

/-- One `otlptracegrpc.Option` value. -/
inductive OtlpOption where
  | withCompressor (s : String)
  | withDialOption (ds : List DialOption)
  | withEndpoint (s : String)
  | withGRPCConn (c : GrpcConn)
  | withHeaders (h : List (String × String))
  | withInsecure
  | withReconnectionPeriod (d : Nat)
  | withRetry (rc : RetryConfig)
  | withServiceConfig (s : String)
  | withTLSCredentials (t : TlsCreds)
  | withTimeout (d : Nat)
  deriving DecidableEq, Repr

/-- `OtlpGrpcSpanExporterConfig` from the source.  Durations in seconds. -/
structure OtlpGrpcSpanExporterConfig where
  compressor : String := ""
  dialOptions : List DialOption := []
  endpoint : String := ""
  grpcConn : Option GrpcConn := none
  headers : List (String × String) := []
  insecure : Bool := false
  reconnectionPeriod : Nat := 0
  retryOptions : List RetryOption := []
  serviceConfig : String := ""
  tlsCredentials : Option TlsCreds := none
  timeout : Nat := 0

/-- `OtlpGrpcSpanExporterConfig.getOptions`: each non-zero field maps to one
option, in source order; the retry options are applied to a zero-valued
`RetryConfig` before being wrapped in `WithRetry`. -/
def OtlpGrpcSpanExporterConfig.getOptions (o : OtlpGrpcSpanExporterConfig) : List OtlpOption :=
  (if o.compressor ≠ "" then [OtlpOption.withCompressor o.compressor] else [])
  ++ (if o.dialOptions.length > 0 then [OtlpOption.withDialOption o.dialOptions] else [])
  ++ (if o.endpoint ≠ "" then [OtlpOption.withEndpoint o.endpoint] else [])
  ++ (match o.grpcConn with
      | none => []
      | some c => [OtlpOption.withGRPCConn c])
  ++ (if o.headers.length > 0 then [OtlpOption.withHeaders o.headers] else [])
  ++ (if o.insecure then [OtlpOption.withInsecure] else [])
  ++ (if o.reconnectionPeriod ≠ 0 then [OtlpOption.withReconnectionPeriod o.reconnectionPeriod] else [])
  ++ (if o.retryOptions.length > 0 then
        [OtlpOption.withRetry (applyRetryOptions o.retryOptions zeroRetryConfig)] else [])
  ++ (if o.serviceConfig ≠ "" then [OtlpOption.withServiceConfig o.serviceConfig] else [])
  ++ (match o.tlsCredentials with
      | none => []
      | some t => [OtlpOption.withTLSCredentials t])
  ++ (if o.timeout ≠ 0 then [OtlpOption.withTimeout o.timeout] else [])

/-- Modelled from the spec: the SDK-side configuration record the OTLP
options populate, one field per option. -/
structure OtlpDriverConfig where
  compressor : String := ""
  dialOptions : List DialOption := []
  endpoint : String := ""
  grpcConn : Option GrpcConn := none
  headers : List (String × String) := []
  insecure : Bool := false
  reconnectionPeriod : Nat := 0
  retry : RetryConfig := defaultRetryConfig
  serviceConfig : String := ""
  tlsCredentials : Option TlsCreds := none
  timeout : Nat := 10
  deriving Repr

/-- Modelled from the spec: applying one OTLP option to the SDK
configuration sets exactly the corresponding field. -/
def applyOtlpOption (cfg : OtlpDriverConfig) : OtlpOption → OtlpDriverConfig
  | .withCompressor s => { cfg with compressor := s }
  | .withDialOption ds => { cfg with dialOptions := ds }
  | .withEndpoint s => { cfg with endpoint := s }
  | .withGRPCConn c => { cfg with grpcConn := some c }
  | .withHeaders h => { cfg with headers := h }
  | .withInsecure => { cfg with insecure := true }
  | .withReconnectionPeriod d => { cfg with reconnectionPeriod := d }
  | .withRetry rc => { cfg with retry := rc }
  | .withServiceConfig s => { cfg with serviceConfig := s }
  | .withTLSCredentials t => { cfg with tlsCredentials := some t }
  | .withTimeout d => { cfg with timeout := d }

/-- Folding a whole option list over the SDK default configuration. -/
def applyOtlpOptions (opts : List OtlpOption) (cfg : OtlpDriverConfig) : OtlpDriverConfig :=
  opts.foldl applyOtlpOption cfg

/-- Modelled from the spec: the connection the OTLP exporter ends up using —
a supplied connection handle when one is present in the configuration,
otherwise a fresh dial governed by the connection-related fields. -/
inductive Connection where
  | supplied (c : GrpcConn)
  | dialed (endpoint : String) (insecure : Bool) (dialOptions : List DialOption)
      (reconnectionPeriod : Nat) (serviceConfig : String)
  deriving DecidableEq, Repr

/-- Modelled from the spec: if an existing connection handle is supplied it
takes precedence over every other connection-related field; otherwise the
exporter dials using those fields. -/
def resolveConnection (cfg : OtlpDriverConfig) : Connection :=
  match cfg.grpcConn with
  | some c => Connection.supplied c
  | none => Connection.dialed cfg.endpoint cfg.insecure cfg.dialOptions
      cfg.reconnectionPeriod cfg.serviceConfig

/-- A span exporter, recording in this model the options it was built
with: the console (stdout-trace) variant or the OTLP-gRPC variant. -/
inductive SpanExporter where
  | console (opts : List ConsoleOption)
  | otlp (opts : List OtlpOption)
  deriving Repr

/-- Modelled from the spec: `stdouttrace.New` builds the console exporter
from its options; construction itself does not fail (the fallible step of
the file variant is the file creation, modelled separately). -/
def stdouttraceNew (opts : List ConsoleOption) : Except String SpanExporter :=
  .ok (SpanExporter.console opts)

/-- `ConsoleSpanExporterConfig.newSpanExporter`: build from `getOptions`. -/
def ConsoleSpanExporterConfig.newSpanExporter (c : ConsoleSpanExporterConfig) :
    Except String SpanExporter :=
  stdouttraceNew c.getOptions

/-- The legacy `newConsoleExporter` from the source: always passes exactly
the writer option followed by the pretty-print option. -/
def newConsoleExporter (w : Writer) : Except String SpanExporter :=
  stdouttraceNew [ConsoleOption.withWriter w, ConsoleOption.withPrettyPrint]

/-- The legacy `newOtlpExporter` from the source: endpoint taken from
configuration, transport security disabled; the external construction can
fail, which is modelled by the `dialOutcome` parameter. -/
def newOtlpExporter (endpoint : String) (dialOutcome : Option String) :
    Except String SpanExporter :=
  match dialOutcome with
  | some e => .error e
  | none => .ok (SpanExporter.otlp [OtlpOption.withEndpoint endpoint, OtlpOption.withInsecure])

/-- The globally installed text-map propagator. -/
inductive Propagator where
  | noop
  | composite
  deriving DecidableEq, Repr

/-- A tracer provider: wraps an exporter (with batching) and a resource. -/
structure TracerProvider where
  resource : Resource
  exporter : SpanExporter
  batching : Bool
  deriving Repr

/-- The package-level and process-wide state the initializers mutate: the
package variable `tp`, the package variable `serviceName`, the tracer
provider registered with `otel.SetTracerProvider`, and the propagator
installed with `otel.SetTextMapPropagator`. -/
structure GlobalState where
  tp : Option TracerProvider
  serviceName : String
  globalTracerProvider : Option TracerProvider
  propagator : Propagator

/-- The process state before any initialization: Go zero values, no
provider registered, the default no-op propagator. -/
def initialState : GlobalState :=
  { tp := none, serviceName := "", globalTracerProvider := none, propagator := .noop }

/-- The modern `OtelInit(startCtx, resourceConf, exporterConfig)` from
`config.go`, with the outcomes of the two external resolution calls
(`newResource`, `newSpanExporter`) passed as parameters: on the first
error it returns that error; on success it constructs a batching provider,
stores it in `tp`, registers it globally and installs the composite
propagator. -/
def OtelInitModern (st : GlobalState) (resourceResult : Except String Resource)
    (exporterResult : Except String SpanExporter) : GlobalState × Option String :=
  match resourceResult with
  | .error e => (st, some e)
  | .ok res =>
    match exporterResult with
    | .error e => (st, some e)
    | .ok exp =>
      let tp : TracerProvider := { resource := res, exporter := exp, batching := true }
      ({ st with tp := some tp, globalTracerProvider := some tp, propagator := .composite },
       none)

/-- The `fileExporter` kind string constant. -/
def fileExporter : String := "file"

/-- The `consoleExporter` kind string constant. -/
def consoleExporter : String := "console"

/-- The `otlpExporter` kind string constant. -/
def otlpExporter : String := "otlp"

/-- A single-quote character, written by code point. -/
def singleQuote : Char := Char.ofNat 39

/-- The formatted error of the legacy initializer's default branch:
`fmt.Errorf` with the unrecognized exporter-kind string spliced between
single quotes. -/
def notImplementedMsg (s : String) : String :=
  "Exporter type " ++ String.mk [singleQuote] ++ s ++ String.mk [singleQuote]
    ++ " is not implemented"

/-- The environment of the legacy initializer: the outcome of the legacy
`newResource` call, the configured file name and the outcome of creating
it, and the configured OTLP endpoint and the outcome of dialing it. -/
structure LegacyEnv where
  resourceResult : Except String Resource
  fileName : String := ""
  fileCreateResult : Except String Writer := .ok (Writer.custom 0)
  otlpEndpoint : String := ""
  otlpDialOutcome : Option String := none

/-- Shared tail of the legacy initializer: check the exporter-construction
error, then build, store and register the provider and install the
composite propagator. -/
def legacyFinish (st : GlobalState) (res : Resource)
    (expResult : Except String SpanExporter) : GlobalState × Option String :=
  match expResult with
  | .error e => (st, some e)
  | .ok exp =>
    let tp : TracerProvider := { resource := res, exporter := exp, batching := true }
    ({ st with tp := some tp, globalTracerProvider := some tp, propagator := .composite },
     none)

/-- The legacy `OtelInit(name, otelExporter)` from the source: sets the
package variable `serviceName` first, then resolves the resource (failing
fast), then switches on the exporter-kind string — console and file wrap
the legacy console exporter (over stdout or a freshly created file), otlp
dials the configured endpoint, and any other string yields the formatted
not-implemented error. -/
def OtelInitLegacy (st : GlobalState) (name otelExporter : String) (env : LegacyEnv) :
    GlobalState × Option String :=
  let st := { st with serviceName := name }
  match env.resourceResult with
  | .error e => (st, some e)
  | .ok res =>
    if otelExporter = consoleExporter then
      legacyFinish st res (newConsoleExporter Writer.stdout)
    else if otelExporter = fileExporter then
      match env.fileCreateResult with
      | .error fErr => (st, some fErr)
      | .ok f => legacyFinish st res (newConsoleExporter f)
    else if otelExporter = Otelutils.otlpExporter then
      legacyFinish st res (newOtlpExporter env.otlpEndpoint env.otlpDialOutcome)
    else
      (st, some (notImplementedMsg otelExporter))

/-- The body of `OtelEnd` once the provider pointer has been dereferenced:
a failing flush returns that error at once (the boolean records whether
shutdown was attempted); otherwise the shutdown result is returned. -/
def OtelEndBody (flushResult shutdownResult : Option String) : Option String × Bool :=
  match flushResult with
  | some e => (some e, false)
  | none => (shutdownResult, true)

/-- `OtelEnd` against the package state; both source variants have this
control flow (one forwards the caller's context, the other a background
context, which does not affect it).  The `tp` pointer is dereferenced
unconditionally: when it is nil the call faults (Go nil-pointer panic),
modelled as `none`; otherwise `some` of the returned error and of whether
shutdown was attempted. -/
def OtelEndRun (st : GlobalState) (flushResult shutdownResult : Option String) :
    Option (Option String × Bool) :=
  match st.tp with
  | none => none
  | some _ => some (OtelEndBody flushResult shutdownResult)

/-- The `traceParent` constant: name of the trace-parent envvar. -/
def traceParent : String := "TRACEPARENT"

/-- Lowercase hex digit for one nibble, by code point: digits start at
code point 48, lowercase letters continue from 97 (= 87 + 10). -/
def hexChar (d : Fin 16) : Char :=
  if d.val < 10 then Char.ofNat (48 + d.val) else Char.ofNat (87 + d.val)

/-- Parse one lowercase hex digit, by code point. -/
def hexVal (c : Char) : Option (Fin 16) :=
  if h : 48 ≤ c.toNat ∧ c.toNat ≤ 57 then some ⟨c.toNat - 48, by omega⟩
  else if h2 : 97 ≤ c.toNat ∧ c.toNat ≤ 102 then some ⟨c.toNat - 87, by omega⟩
  else none

/-- A span context: trace identifier (32 hex nibbles), span identifier
(16 hex nibbles) and trace flags (2 hex nibbles). -/
structure SpanContext where
  traceID : List (Fin 16)
  spanID : List (Fin 16)
  flags : List (Fin 16)
  deriving DecidableEq, Repr

/-- Validity per the W3C trace-context rules the SDK enforces: the
identifiers have their fixed lengths and are not all zero. -/
def SpanContext.valid (sc : SpanContext) : Prop :=
  sc.traceID.length = 32 ∧ sc.spanID.length = 16 ∧ sc.flags.length = 2 ∧
  sc.traceID.any (· ≠ 0) ∧ sc.spanID.any (· ≠ 0)

instance (sc : SpanContext) : Decidable sc.valid := by
  unfold SpanContext.valid; infer_instance

/-- Modelled from the spec: the W3C traceparent textual encoding
`00-<trace-id>-<span-id>-<flags>`, at the character level. -/
def encodeTraceparentChars (sc : SpanContext) : List Char :=
  '0' :: '0' :: '-' :: (sc.traceID.map hexChar
    ++ '-' :: (sc.spanID.map hexChar ++ '-' :: sc.flags.map hexChar))

/-- The traceparent header value as a string. -/
def encodeTraceparent (sc : SpanContext) : String :=
  String.mk (encodeTraceparentChars sc)

/-- Modelled from the spec: parsing a traceparent value — version `00`,
then a 32-nibble trace id, a 16-nibble span id and 2 flag nibbles,
hyphen-separated; identifiers must be hex and not all zero. -/
def decodeTraceparentChars : List Char → Option (List (Fin 16) × List (Fin 16))
  | '0' :: '0' :: '-' :: rest =>
    match rest.drop 32 with
    | '-' :: rest2 =>
      match rest2.drop 16 with
      | '-' :: fl =>
        match (rest.take 32).mapM hexVal, (rest2.take 16).mapM hexVal, fl.mapM hexVal with
        | some tid, some sid, some flags =>
          if tid.length = 32 ∧ sid.length = 16 ∧ flags.length = 2 ∧
              tid.any (· ≠ 0) ∧ sid.any (· ≠ 0) then
            some (tid, sid)
          else none
        | _, _, _ => none
      | _ => none
    | _ => none
  | _ => none

/-- A text-map carrier (`propagation.MapCarrier`): a string-keyed map,
modelled as an association list; `Get` of a missing key is the empty
string (Go map zero value). -/
abbrev Carrier := List (String × String)

/-- `MapCarrier.Get`. -/
def carrierGet (c : Carrier) (k : String) : String :=
  (c.lookup k).getD ""

/-- A context as the propagator sees it: an optional span context and the
baggage members. -/
structure ContextModel where
  spanContext : Option SpanContext := none
  baggage : List (String × String) := []

/-- One baggage list member rendered `key=value`. -/
def baggageMember (kv : String × String) : String :=
  kv.1 ++ "=" ++ kv.2

/-- Modelled from the spec: the composite propagator of trace-context and
baggage — inject writes the `traceparent` key when the context carries a
valid span context, and the `baggage` key when baggage members exist. -/
def injectContext (ctx : ContextModel) : Carrier :=
  (match ctx.spanContext with
   | some sc => if sc.valid then [("traceparent", encodeTraceparent sc)] else []
   | none => [])
  ++ (if ctx.baggage.length > 0 then
        [("baggage", String.intercalate "," (ctx.baggage.map baggageMember))] else [])

/-- Modelled from the spec: trace-context extraction — read the
`traceparent` key of the carrier and parse it into trace and span
identifiers. -/
def extractContext (c : Carrier) : Option (List (Fin 16) × List (Fin 16)) :=
  match c.lookup "traceparent" with
  | none => none
  | some v => decodeTraceparentChars v.data

/-- ASCII lowercasing of one character, as `strings.ToLower` does on the
ASCII constant it is applied to. -/
def asciiLower (c : Char) : Char :=
  if 'A' ≤ c ∧ c ≤ 'Z' then Char.ofNat (c.toNat + 32) else c

/-- `strings.ToLower`, on ASCII strings. -/
def stringToLower (s : String) : String :=
  String.mk (s.data.map asciiLower)

/-- `GetTraceParentEnv` from the source: inject the context into a fresh
map carrier through the globally installed propagator, then format the
trace-parent key and the carrier's lowercased-key entry as `KEY=VALUE`. -/
def GetTraceParentEnv (ctx : ContextModel) : String :=
  let carrier := injectContext ctx
  traceParent ++ "=" ++ carrierGet carrier (stringToLower traceParent)

theorem mem_ite_nil_iff {α : Type} (a : α) (p : Prop) [Decidable p] (l : List α) :
    a ∈ (if p then l else []) ↔ p ∧ a ∈ l := by
  split <;> simp_all

/-- C1: for every `ResourceConfig`, the option list handed to the SDK
resource constructor always contains the schema-URL and SDK-identification
options; every other option appears iff its boolean field is true or its
collection field is non-empty; with every boolean false and every
collection empty only those two options are passed, and the resolved
resource is then exactly the default resource merged with the
SDK-identification attributes under the schema URL. -/
theorem resource_options_spec (r : ResourceConfig) (e : DetectEnv) :
    (r.allZero → r.getOptions =
      [ResourceOption.withSchemaURL semconvSchemaURL, ResourceOption.withTelemetrySDK]) ∧
    (r.allZero → r.newResource e =
      resourceMerge e.defaultResource
        { schemaURL := semconvSchemaURL, attrs := e.telemetrySDK }) ∧
    ResourceOption.withSchemaURL semconvSchemaURL ∈ r.getOptions ∧
    ResourceOption.withTelemetrySDK ∈ r.getOptions ∧
    (ResourceOption.withAttributes r.attributes ∈ r.getOptions ↔ r.attributes.length > 0) ∧
    (ResourceOption.withContainer ∈ r.getOptions ↔ r.container = true) ∧
    (ResourceOption.withContainerID ∈ r.getOptions ↔ r.containerID = true) ∧
    (ResourceOption.withDetectors r.detectors ∈ r.getOptions ↔ r.detectors.length > 0) ∧
    (ResourceOption.withFromEnv ∈ r.getOptions ↔ r.fromEnv = true) ∧
    (ResourceOption.withHost ∈ r.getOptions ↔ r.host = true) ∧
    (ResourceOption.withOS ∈ r.getOptions ↔ r.os = true) ∧
    (ResourceOption.withOSDescription ∈ r.getOptions ↔ r.osDescription = true) ∧
    (ResourceOption.withOSType ∈ r.getOptions ↔ r.osType = true) ∧
    (ResourceOption.withProcess ∈ r.getOptions ↔ r.process = true) ∧
    (ResourceOption.withProcessCommandArgs ∈ r.getOptions ↔ r.processCommandArgs = true) ∧
    (ResourceOption.withProcessExecutableName ∈ r.getOptions ↔ r.processExecutableName = true) ∧
    (ResourceOption.withProcessExecutablePath ∈ r.getOptions ↔ r.processExecutablePath = true) ∧
    (ResourceOption.withProcessOwner ∈ r.getOptions ↔ r.processOwner = true) ∧
    (ResourceOption.withProcessPID ∈ r.getOptions ↔ r.processPID = true) ∧
    (ResourceOption.withProcessRuntimeDescription ∈ r.getOptions ↔
      r.processRuntimeDescription = true) ∧
    (ResourceOption.withProcessRuntimeName ∈ r.getOptions ↔ r.processRuntimeName = true) ∧
    (ResourceOption.withProcessRuntimeVersion ∈ r.getOptions ↔ r.processRuntimeVersion = true) := by
  have hz : r.allZero → r.getOptions =
      [ResourceOption.withSchemaURL semconvSchemaURL, ResourceOption.withTelemetrySDK] := by
    intro h
    obtain ⟨h1, h2, h3, h4, h5, h6, h7, h8, h9, h10, h11, h12, h13, h14, h15, h16, h17, h18⟩ := h
    simp [ResourceConfig.getOptions, h1, h2, h3, h4, h5, h6, h7, h8, h9, h10, h11, h12, h13,
      h14, h15, h16, h17, h18]
  refine ⟨hz, ?_, ?_⟩
  · intro h
    rw [ResourceConfig.newResource, hz h]
    simp [resourceNew, optionAttrs, optionSchema]
  · simp only [ResourceConfig.getOptions, List.mem_append, mem_ite_nil_iff]
    simp

/-- Witness for C1: at the all-zero configuration exactly the schema-URL
and SDK-identification options are passed. -/
theorem resource_options_spec_inst :
    ResourceConfig.getOptions {} =
      [ResourceOption.withSchemaURL semconvSchemaURL, ResourceOption.withTelemetrySDK] :=
  (resource_options_spec {} {}).1 (by decide)

/-- The OTLP configuration whose only non-zero field is a single retry
option setting the initial interval to 5 seconds. -/
def retryOnlyConfig : OtlpGrpcSpanExporterConfig :=
  { retryOptions := [RetryInitialInterval 5] }

/-- C2 (divergence): the source applies the retry option-functions to the
zero-valued `RetryConfig`, not to the exporter's default backoff policy —
with a single option setting only the initial interval, the resulting
retry configuration has retries disabled and every unset field zero,
while the default policy (which the claim and the source's own field
documentation say is the base) has retries enabled; each option-function
does, as claimed, mutate exactly its own field. -/
theorem retry_options_zero_base :
    OtlpGrpcSpanExporterConfig.getOptions retryOnlyConfig =
      [OtlpOption.withRetry
        { enabled := false, initialInterval := 5, maxInterval := 0, maxElapsedTime := 0 }] ∧
    applyRetryOptions retryOnlyConfig.retryOptions zeroRetryConfig ≠
      applyRetryOptions retryOnlyConfig.retryOptions defaultRetryConfig ∧
    (applyRetryOptions retryOnlyConfig.retryOptions zeroRetryConfig).enabled = false ∧
    defaultRetryConfig.enabled = true ∧
    (∀ rc b, RetryEnabled b rc = { rc with enabled := b }) ∧
    (∀ rc d, RetryInitialInterval d rc = { rc with initialInterval := d }) ∧
    (∀ rc d, RetryMaxInterval d rc = { rc with maxInterval := d }) ∧
    (∀ rc d, RetryMaxElapsedTime d rc = { rc with maxElapsedTime := d }) := by
  refine ⟨by decide, by decide, by decide, by decide, ?_, ?_, ?_, ?_⟩ <;>
    intro rc d <;> rfl

theorem applyOtlpOption_grpcConn (cfg : OtlpDriverConfig) (x : OtlpOption)
    (hx : ∀ c, x ≠ OtlpOption.withGRPCConn c) :
    (applyOtlpOption cfg x).grpcConn = cfg.grpcConn := by
  cases x <;> first | rfl | exact absurd rfl (hx _)

theorem foldl_grpcConn_no_conn (l : List OtlpOption) (cfg : OtlpDriverConfig)
    (h : ∀ c, OtlpOption.withGRPCConn c ∉ l) :
    (l.foldl applyOtlpOption cfg).grpcConn = cfg.grpcConn := by
  induction l generalizing cfg with
  | nil => rfl
  | cons x xs ih =>
    rw [List.foldl_cons, ih _ (fun c hc => h c (List.mem_cons_of_mem _ hc))]
    refine applyOtlpOption_grpcConn cfg x (fun c hxc => h c ?_)
    rw [← hxc]
    exact List.mem_cons_self x xs

theorem not_conn_seg {p : Prop} [Decidable p] (x : OtlpOption)
    (hx : ∀ c, x ≠ OtlpOption.withGRPCConn c) (c : GrpcConn) :
    OtlpOption.withGRPCConn c ∉ (if p then [x] else []) := by
  split
  · simp only [List.mem_singleton]
    exact fun h => hx c h.symm
  · simp

theorem not_conn_tls (t : Option TlsCreds) (c : GrpcConn) :
    OtlpOption.withGRPCConn c ∉
      (match t with
       | none => ([] : List OtlpOption)
       | some t => [OtlpOption.withTLSCredentials t]) := by
  cases t <;> simp

theorem grpcConn_after_getOptions (o : OtlpGrpcSpanExporterConfig) (cfg : OtlpDriverConfig) :
    (applyOtlpOptions o.getOptions cfg).grpcConn =
      (match o.grpcConn with
       | some c => some c
       | none => cfg.grpcConn) := by
  unfold applyOtlpOptions OtlpGrpcSpanExporterConfig.getOptions
  simp only [List.foldl_append]
  rw [foldl_grpcConn_no_conn _ _
      (not_conn_seg (OtlpOption.withTimeout o.timeout) (fun c h => nomatch h)),
    foldl_grpcConn_no_conn _ _ (not_conn_tls o.tlsCredentials),
    foldl_grpcConn_no_conn _ _
      (not_conn_seg (OtlpOption.withServiceConfig o.serviceConfig) (fun c h => nomatch h)),
    foldl_grpcConn_no_conn _ _
      (not_conn_seg (OtlpOption.withRetry (applyRetryOptions o.retryOptions zeroRetryConfig))
        (fun c h => nomatch h)),
    foldl_grpcConn_no_conn _ _
      (not_conn_seg (OtlpOption.withReconnectionPeriod o.reconnectionPeriod)
        (fun c h => nomatch h)),
    foldl_grpcConn_no_conn _ _
      (not_conn_seg OtlpOption.withInsecure (fun c h => nomatch h)),
    foldl_grpcConn_no_conn _ _
      (not_conn_seg (OtlpOption.withHeaders o.headers) (fun c h => nomatch h))]
  cases o.grpcConn with
  | none =>
    simp only
    rw [List.foldl_nil,
      foldl_grpcConn_no_conn _ _
        (not_conn_seg (OtlpOption.withEndpoint o.endpoint) (fun c h => nomatch h)),
      foldl_grpcConn_no_conn _ _
        (not_conn_seg (OtlpOption.withDialOption o.dialOptions) (fun c h => nomatch h)),
      foldl_grpcConn_no_conn _ _
        (not_conn_seg (OtlpOption.withCompressor o.compressor) (fun c h => nomatch h))]
  | some c => rfl

/-- C3: for every OTLP configuration with a supplied gRPC connection, the
exporter resolves to exactly that connection — every other
connection-related field (endpoint, insecure flag, dial options,
reconnection period, service config) is ignored, so any two
configurations supplying the same connection resolve identically. -/
theorem otlp_conn_precedence (o : OtlpGrpcSpanExporterConfig) (c : GrpcConn)
    (h : o.grpcConn = some c) :
    resolveConnection (applyOtlpOptions o.getOptions {}) = Connection.supplied c ∧
    (∀ o' : OtlpGrpcSpanExporterConfig, o'.grpcConn = some c →
      resolveConnection (applyOtlpOptions o'.getOptions {}) =
        resolveConnection (applyOtlpOptions o.getOptions {})) := by
  have key : ∀ o'' : OtlpGrpcSpanExporterConfig, o''.grpcConn = some c →
      resolveConnection (applyOtlpOptions o''.getOptions {}) = Connection.supplied c := by
    intro o'' h''
    have hg : (applyOtlpOptions o''.getOptions {}).grpcConn = some c := by
      rw [grpcConn_after_getOptions, h'']
    simp [resolveConnection, hg]
  exact ⟨key o h, fun o' h' => (key o' h').trans (key o h).symm⟩

/-- A configuration supplying a connection and, alongside it, an endpoint,
the insecure flag, a dial option, a reconnection period and a service
config. -/
def connPrecedenceConfig : OtlpGrpcSpanExporterConfig :=
  { grpcConn := some ⟨"collector:4317"⟩, endpoint := "ignored:1", insecure := true,
    dialOptions := [⟨7⟩], reconnectionPeriod := 3, serviceConfig := "svc-cfg" }

/-- Witness for C3: the supplied connection wins over the other populated
connection fields. -/
theorem otlp_conn_precedence_inst :
    resolveConnection (applyOtlpOptions connPrecedenceConfig.getOptions {}) =
      Connection.supplied ⟨"collector:4317"⟩ :=
  (otlp_conn_precedence connPrecedenceConfig ⟨"collector:4317"⟩ rfl).1

/-- A concrete provider used to instantiate theorems about teardown. -/
def sampleProvider : TracerProvider :=
  { resource := {}, exporter := SpanExporter.console [], batching := true }

/-- C4: with a live provider, a failing flush makes `OtelEnd` return that
error at once without attempting shutdown; a successful flush makes it
return the shutdown result — the first error from flush then shutdown. -/
theorem otel_end_flush_short_circuit (st : GlobalState) (tp0 : TracerProvider)
    (hst : st.tp = some tp0) (flushResult shutdownResult : Option String) :
    (∀ e, flushResult = some e →
      OtelEndRun st flushResult shutdownResult = some (some e, false)) ∧
    (flushResult = none →
      OtelEndRun st flushResult shutdownResult = some (shutdownResult, true)) := by
  unfold OtelEndRun
  rw [hst]
  constructor
  · intro e he
    rw [he]
    rfl
  · intro he
    rw [he]
    rfl

/-- Witness for C4: flush failure is returned and shutdown not attempted. -/
theorem otel_end_flush_short_circuit_inst :
    OtelEndRun { initialState with tp := some sampleProvider }
        (some "flush failed") (some "shutdown failed") = some (some "flush failed", false) :=
  (otel_end_flush_short_circuit _ sampleProvider rfl _ _).1 "flush failed" rfl

theorem otelInitModern_error (st : GlobalState) (rr : Except String Resource)
    (er : Except String SpanExporter) (st' : GlobalState) (e : String)
    (h : OtelInitModern st rr er = (st', some e)) : st' = st := by
  unfold OtelInitModern at h
  cases rr with
  | error e1 => simp at h; exact h.1.symm
  | ok res =>
    cases er with
    | error e2 => simp at h; exact h.1.symm
    | ok exp => simp at h

theorem otelInitLegacy_error (st : GlobalState) (name kind : String) (env : LegacyEnv)
    (st' : GlobalState) (e : String)
    (h : OtelInitLegacy st name kind env = (st', some e)) :
    st' = { st with serviceName := name } := by
  unfold OtelInitLegacy at h
  cases hr : env.resourceResult with
  | error e1 => rw [hr] at h; simp at h; exact h.1.symm
  | ok res =>
    rw [hr] at h
    simp only at h
    by_cases hc : kind = consoleExporter
    · rw [if_pos hc] at h
      simp [legacyFinish, newConsoleExporter, stdouttraceNew] at h
    · rw [if_neg hc] at h
      by_cases hf : kind = fileExporter
      · rw [if_pos hf] at h
        cases hfc : env.fileCreateResult with
        | error fe => rw [hfc] at h; simp at h; exact h.1.symm
        | ok f =>
          rw [hfc] at h
          simp [legacyFinish, newConsoleExporter, stdouttraceNew] at h
      · rw [if_neg hf] at h
        by_cases ho : kind = otlpExporter
        · rw [if_pos ho] at h
          cases hd : env.otlpDialOutcome with
          | some de =>
            rw [hd] at h
            simp [newOtlpExporter, legacyFinish] at h
            exact h.1.symm
          | none =>
            rw [hd] at h
            simp [newOtlpExporter, legacyFinish] at h
        · rw [if_neg ho] at h; simp at h; exact h.1.symm

/-- The environment of the C5 counterexample: resource resolution succeeds
but creating the span-output file fails. -/
def failingFileEnv : LegacyEnv :=
  { resourceResult := .ok {}, fileCreateResult := .error "permission denied" }

/-- C5 counterexample: the legacy initializer called on the uninitialized
state with a failing exporter construction returns the error, yet the
package-level service-name variable has been modified — the process-wide
state is not left exactly as it was before the call. -/
theorem otel_init_not_atomic_cex :
    (OtelInitLegacy initialState "svc" fileExporter failingFileEnv).2 =
      some "permission denied" ∧
    (OtelInitLegacy initialState "svc" fileExporter failingFileEnv).1.serviceName ≠
      initialState.serviceName := by
  constructor
  · rfl
  · decide

/-- C5 (amended): the modern initializer is atomic — on resource or
exporter failure it returns the process-wide state unchanged; the legacy
initializer leaves the provider pointer, the global registration and the
propagator unchanged on any failure, but has by then already set the
package-level service name to the supplied name. -/
theorem otel_init_failure_state (st : GlobalState) :
    (∀ rr er st' e, OtelInitModern st rr er = (st', some e) → st' = st) ∧
    (∀ name kind env st' e, OtelInitLegacy st name kind env = (st', some e) →
      st'.tp = st.tp ∧ st'.globalTracerProvider = st.globalTracerProvider ∧
      st'.propagator = st.propagator ∧ st'.serviceName = name) := by
  refine ⟨fun rr er st' e h => otelInitModern_error st rr er st' e h, ?_⟩
  intro name kind env st' e h
  rw [otelInitLegacy_error st name kind env st' e h]
  exact ⟨rfl, rfl, rfl, rfl⟩

/-- Witness for C5 (amended): after the failing legacy call, the provider
pointer is unchanged while the service name now holds the supplied name. -/
theorem otel_init_failure_state_inst :
    (OtelInitLegacy initialState "svc" fileExporter failingFileEnv).1.tp = initialState.tp ∧
    (OtelInitLegacy initialState "svc" fileExporter failingFileEnv).1.serviceName = "svc" := by
  have h := (otel_init_failure_state initialState).2 "svc" fileExporter failingFileEnv
    (OtelInitLegacy initialState "svc" fileExporter failingFileEnv).1 "permission denied" rfl
  exact ⟨h.1, h.2.2.2⟩

/-- C6: for every exporter-kind string other than the three supported
ones, the legacy initializer (its resource resolution succeeding) returns
the formatted not-implemented error naming the string and registers no
tracer provider. -/
theorem legacy_unknown_exporter (st : GlobalState) (name kind : String) (env : LegacyEnv)
    (res : Resource) (hres : env.resourceResult = .ok res)
    (h1 : kind ≠ fileExporter) (h2 : kind ≠ consoleExporter) (h3 : kind ≠ otlpExporter) :
    OtelInitLegacy st name kind env =
      ({ st with serviceName := name }, some (notImplementedMsg kind)) ∧
    (OtelInitLegacy st name kind env).1.tp = st.tp ∧
    (OtelInitLegacy st name kind env).1.globalTracerProvider = st.globalTracerProvider := by
  have key : OtelInitLegacy st name kind env =
      ({ st with serviceName := name }, some (notImplementedMsg kind)) := by
    unfold OtelInitLegacy
    rw [hres]
    simp only
    rw [if_neg h2, if_neg h1, if_neg h3]
  exact ⟨key, by rw [key], by rw [key]⟩

/-- Witness for C6 at the kind string "jaeger". -/
theorem legacy_unknown_exporter_inst :
    OtelInitLegacy initialState "svc" "jaeger" { resourceResult := .ok {} } =
      ({ initialState with serviceName := "svc" }, some (notImplementedMsg "jaeger")) :=
  (legacy_unknown_exporter initialState "svc" "jaeger" { resourceResult := .ok {} } {} rfl
    (by decide) (by decide) (by decide)).1

/-- C9: both `OtelEnd` variants dereference the provider pointer
unconditionally, so before any successful initialization — on the initial
state, on any state with a nil provider pointer, and still after any
failed initialization, which leaves the pointer nil — the call faults
instead of returning an error. -/
theorem otel_end_uninitialized_faults (flushResult shutdownResult : Option String) :
    OtelEndRun initialState flushResult shutdownResult = none ∧
    (∀ st : GlobalState, st.tp = none → OtelEndRun st flushResult shutdownResult = none) ∧
    (∀ st rr er st' e, st.tp = none → OtelInitModern st rr er = (st', some e) →
      OtelEndRun st' flushResult shutdownResult = none) ∧
    (∀ st name kind env st' e, st.tp = none → OtelInitLegacy st name kind env = (st', some e) →
      OtelEndRun st' flushResult shutdownResult = none) := by
  have base : ∀ st : GlobalState, st.tp = none →
      OtelEndRun st flushResult shutdownResult = none := by
    intro st h
    unfold OtelEndRun
    rw [h]
  refine ⟨base initialState rfl, base, ?_, ?_⟩
  · intro st rr er st' e h hinit
    rw [otelInitModern_error st rr er st' e hinit]
    exact base st h
  · intro st name kind env st' e h hinit
    rw [otelInitLegacy_error st name kind env st' e hinit]
    exact base _ h

/-- Witness for C9: teardown on the uninitialized state faults. -/
theorem otel_end_uninitialized_faults_inst :
    OtelEndRun initialState none none = none ∧
    OtelEndRun (OtelInitLegacy initialState "svc" fileExporter failingFileEnv).1 none none =
      none := by
  refine ⟨(otel_end_uninitialized_faults none none).1, ?_⟩
  exact (otel_end_uninitialized_faults none none).2.2.2 initialState "svc" fileExporter
    failingFileEnv _ "permission denied" rfl rfl

theorem mem_console_writer (c : ConsoleSpanExporterConfig) (w : Writer) :
    ConsoleOption.withWriter w ∈ c.getOptions ↔ w = c.writer.getD Writer.stdout := by
  cases hw : c.writer <;>
    simp [ConsoleSpanExporterConfig.getOptions, mem_ite_nil_iff, hw]

theorem mem_console_pretty (c : ConsoleSpanExporterConfig) :
    ConsoleOption.withPrettyPrint ∈ c.getOptions ↔ c.prettyPrint = true := by
  cases hw : c.writer <;>
    simp [ConsoleSpanExporterConfig.getOptions, mem_ite_nil_iff, hw]

theorem mem_console_ts (c : ConsoleSpanExporterConfig) :
    ConsoleOption.withoutTimestamps ∈ c.getOptions ↔ c.timestamps = false := by
  cases hw : c.writer <;>
    simp [ConsoleSpanExporterConfig.getOptions, mem_ite_nil_iff, hw]

/-- C7: the console exporter is built over the process's standard output
exactly when no writer is supplied and over the supplied writer otherwise;
the pretty-print and timestamp booleans each control exactly their own
option, each independent of the other two fields. -/
theorem console_options_spec (c : ConsoleSpanExporterConfig) :
    (c.writer = none → ConsoleOption.withWriter Writer.stdout ∈ c.getOptions) ∧
    (∀ w, c.writer = some w → ConsoleOption.withWriter w ∈ c.getOptions) ∧
    (∀ w, ConsoleOption.withWriter w ∈ c.getOptions ↔ w = c.writer.getD Writer.stdout) ∧
    (ConsoleOption.withPrettyPrint ∈ c.getOptions ↔ c.prettyPrint = true) ∧
    (ConsoleOption.withoutTimestamps ∈ c.getOptions ↔ c.timestamps = false) ∧
    (∀ c' : ConsoleSpanExporterConfig, c'.prettyPrint = c.prettyPrint →
      (ConsoleOption.withPrettyPrint ∈ c'.getOptions ↔
        ConsoleOption.withPrettyPrint ∈ c.getOptions)) ∧
    (∀ c' : ConsoleSpanExporterConfig, c'.timestamps = c.timestamps →
      (ConsoleOption.withoutTimestamps ∈ c'.getOptions ↔
        ConsoleOption.withoutTimestamps ∈ c.getOptions)) ∧
    (∀ c' : ConsoleSpanExporterConfig, c'.writer = c.writer → ∀ w,
      (ConsoleOption.withWriter w ∈ c'.getOptions ↔
        ConsoleOption.withWriter w ∈ c.getOptions)) ∧
    c.newSpanExporter = .ok (SpanExporter.console c.getOptions) := by
  refine ⟨?_, ?_, mem_console_writer c, mem_console_pretty c, mem_console_ts c, ?_, ?_, ?_, rfl⟩
  · intro hw
    rw [mem_console_writer, hw]
    rfl
  · intro w hw
    rw [mem_console_writer, hw]
    rfl
  · intro c' hp
    rw [mem_console_pretty, mem_console_pretty, hp]
  · intro c' ht
    rw [mem_console_ts, mem_console_ts, ht]
  · intro c' hw w
    rw [mem_console_writer, mem_console_writer, hw]

/-- Witness for C7: with no writer supplied the stdout writer option is
passed. -/
theorem console_options_spec_inst :
    ConsoleOption.withWriter Writer.stdout ∈
      ConsoleSpanExporterConfig.getOptions { prettyPrint := true } :=
  (console_options_spec { prettyPrint := true }).1 rfl

/-- C10: the legacy console helper takes only a writer and always builds
the exporter from exactly the writer option followed by unconditional
pretty-printing, never passing a timestamp option (the SDK default
stands); through the legacy initializer, the console kind gets the
standard-output writer and the file kind the created file. -/
theorem legacy_console_pretty_fixed (w : Writer) :
    newConsoleExporter w =
      .ok (SpanExporter.console
        [ConsoleOption.withWriter w, ConsoleOption.withPrettyPrint]) ∧
    ConsoleOption.withPrettyPrint ∈
      [ConsoleOption.withWriter w, ConsoleOption.withPrettyPrint] ∧
    ConsoleOption.withoutTimestamps ∉
      [ConsoleOption.withWriter w, ConsoleOption.withPrettyPrint] ∧
    (∀ st name env res st', env.resourceResult = Except.ok res →
      OtelInitLegacy st name consoleExporter env = (st', none) →
      st'.tp = some
        { resource := res,
          exporter := SpanExporter.console
            [ConsoleOption.withWriter Writer.stdout, ConsoleOption.withPrettyPrint],
          batching := true }) ∧
    (∀ st name env res f st', env.resourceResult = Except.ok res →
      env.fileCreateResult = Except.ok f →
      OtelInitLegacy st name fileExporter env = (st', none) →
      st'.tp = some
        { resource := res,
          exporter := SpanExporter.console
            [ConsoleOption.withWriter f, ConsoleOption.withPrettyPrint],
          batching := true }) := by
  refine ⟨rfl, by simp, by simp, ?_, ?_⟩
  · intro st name env res st' hres hinit
    unfold OtelInitLegacy at hinit
    rw [hres] at hinit
    simp only [if_pos rfl] at hinit
    simp [legacyFinish, newConsoleExporter, stdouttraceNew] at hinit
    rw [← hinit]
  · intro st name env res f st' hres hf hinit
    unfold OtelInitLegacy at hinit
    rw [hres] at hinit
    simp [legacyFinish, newConsoleExporter, stdouttraceNew, hf, fileExporter,
      consoleExporter, otlpExporter] at hinit
    rw [← hinit]

/-- Witness for C10: the console kind registers a provider whose exporter
pretty-prints to stdout. -/
theorem legacy_console_pretty_fixed_inst :
    (OtelInitLegacy initialState "svc" consoleExporter { resourceResult := .ok {} }).1.tp =
      some
        { resource := {},
          exporter := SpanExporter.console
            [ConsoleOption.withWriter Writer.stdout, ConsoleOption.withPrettyPrint],
          batching := true } :=
  (legacy_console_pretty_fixed Writer.stdout).2.2.2.1 initialState "svc"
    { resourceResult := .ok {} } {}
    (OtelInitLegacy initialState "svc" consoleExporter { resourceResult := .ok {} }).1 rfl rfl

theorem hexVal_hexChar : ∀ d : Fin 16, hexVal (hexChar d) = some d := by decide

theorem mapM_loop_hexVal (l : List (Fin 16)) (acc : List (Fin 16)) :
    List.mapM.loop hexVal (l.map hexChar) acc = some (acc.reverse ++ l) := by
  induction l generalizing acc with
  | nil => simp [List.mapM.loop]
  | cons d l ih => simp [List.mapM.loop, hexVal_hexChar, ih]

theorem mapM_hexVal_map (l : List (Fin 16)) : (l.map hexChar).mapM hexVal = some l := by
  have h := mapM_loop_hexVal l []
  simpa [List.mapM] using h

theorem decode_encode (sc : SpanContext) (h : sc.valid) :
    decodeTraceparentChars (encodeTraceparentChars sc) = some (sc.traceID, sc.spanID) := by
  obtain ⟨h1, h2, h3, h4, h5⟩ := h
  have ht : (sc.traceID.map hexChar).length = 32 := by simp [h1]
  have hs : (sc.spanID.map hexChar).length = 16 := by simp [h2]
  unfold encodeTraceparentChars
  simp only [decodeTraceparentChars, List.drop_left' ht, List.take_left' ht,
    List.drop_left' hs, List.take_left' hs, mapM_hexVal_map]
  rw [if_pos ⟨h1, h2, h3, h4, h5⟩]

/-- C8: for every context carrying a valid span context, the exported
environment string is TRACEPARENT= followed by the W3C encoding of that
span context, and extracting from a carrier that maps traceparent to that
value recovers the original trace identifier and span identifier. -/
theorem traceparent_round_trip (ctx : ContextModel) (sc : SpanContext)
    (hctx : ctx.spanContext = some sc) (hv : sc.valid) :
    GetTraceParentEnv ctx = "TRACEPARENT=" ++ encodeTraceparent sc ∧
    extractContext [("traceparent", encodeTraceparent sc)] = some (sc.traceID, sc.spanID) := by
  constructor
  · have hl : stringToLower traceParent = "traceparent" := rfl
    unfold GetTraceParentEnv injectContext
    rw [hctx, hl]
    by_cases hb : ctx.baggage.length > 0
    · simp [if_pos hv, if_pos hb, carrierGet, List.lookup, traceParent]
    · simp [if_pos hv, if_neg hb, carrierGet, List.lookup, traceParent]
  · unfold extractContext
    simp [List.lookup]
    exact decode_encode sc hv

/-- A concrete valid span context. -/
def sampleSpanContext : SpanContext :=
  { traceID := List.replicate 31 (0 : Fin 16) ++ [1]
  , spanID := List.replicate 15 (0 : Fin 16) ++ [2]
  , flags := [0, 1] }

/-- Witness for C8 at a concrete valid span context. -/
theorem traceparent_round_trip_inst :
    GetTraceParentEnv { spanContext := some sampleSpanContext } =
      "TRACEPARENT=" ++ encodeTraceparent sampleSpanContext ∧
    extractContext [("traceparent", encodeTraceparent sampleSpanContext)] =
      some (sampleSpanContext.traceID, sampleSpanContext.spanID) :=
  traceparent_round_trip { spanContext := some sampleSpanContext } sampleSpanContext rfl
    (by decide)

end Otelutils
